import Mathlib

/-!
Verification of the particle-field animation code: shallow embedding of the
shape samplers, attribute rules, smoothing filter and per-tick update,
together with theorems settling the specified properties.

Real-valued quantities of the source are embedded as exact reals; each random
draw of the source (Math.random, uniform in [0,1)) appears as an explicit
parameter constrained to [0,1) where the property needs it.
-/

/-! ## Basic 3D vector helpers -/

/-- Componentwise sum of two 3D points, as used by the per-particle update
loops (originalPositions plus displacement). -/
def add3 (p q : ℝ × ℝ × ℝ) : ℝ × ℝ × ℝ :=
  (p.1 + q.1, p.2.1 + q.2.1, p.2.2 + q.2.2)

/-- Euclidean length of the displacement with components x, y, z. -/
noncomputable def norm3 (x y z : ℝ) : ℝ :=
  Real.sqrt (x ^ 2 + y ^ 2 + z ^ 2)

/-- Euclidean distance between two 3D points. -/
noncomputable def dist3 (p q : ℝ × ℝ × ℝ) : ℝ :=
  norm3 (p.1 - q.1) (p.2.1 - q.2.1) (p.2.2 - q.2.2)

/-! ## InteractionController: exponential smoothing
From the animate loops, e.g. surveillance.js:
currentRotation.x += (targetRotation.x - currentRotation.x) * smoothing. -/

/-- One smoothing tick: current += (target - current) * smoothing. -/
def smoothingStep (smoothing target current : ℝ) : ℝ :=
  current + (target - current) * smoothing

/-- The current value after n ticks starting from rest (current = 0),
with the target held constant. -/
def currentFromRest (smoothing target : ℝ) : ℕ → ℝ
  | 0 => 0
  | n + 1 => smoothingStep smoothing target (currentFromRest smoothing target n)

/-! ## MotionState: organic float displacement
From the animate loops: dx = sin(time*speed+ox)*ax, dy = sin(time*speed*0.8+oy)*ay,
dz = sin(time*speed*0.6+oz)*az, with amplitudes (0.5,0.5,0.3) in
familyoffice.js/surveillance.js and (0.6,0.6,0.3) in the disc-iris variant. -/

/-- The organic float displacement at a given time for one particle. -/
noncomputable def floatDisplacement (ax ay az time speed ox oy oz : ℝ) : ℝ × ℝ × ℝ :=
  (Real.sin (time * speed + ox) * ax,
   Real.sin (time * speed * 0.8 + oy) * ay,
   Real.sin (time * speed * 0.6 + oz) * az)

/-- Per-tick particle position of the familyoffice.js variant:
originalPositions[i] + (dx, dy, dz) with amplitudes 0.5, 0.5, 0.3. -/
noncomputable def familyOfficeCurrentPosition (base : ℝ × ℝ × ℝ)
    (time speed ox oy oz : ℝ) : ℝ × ℝ × ℝ :=
  add3 base (floatDisplacement 0.5 0.5 0.3 time speed ox oy oz)

/-- Per-tick particle position of the disc-iris surveillance variant:
originalPositions[i] + (dx, dy, dz) with amplitudes 0.6, 0.6, 0.3, plus the
smoothed currentEyeShift added to the x and y components. -/
noncomputable def discIrisCurrentPosition (base : ℝ × ℝ × ℝ) (shift : ℝ × ℝ)
    (time speed ox oy oz : ℝ) : ℝ × ℝ × ℝ :=
  add3 base (add3 (floatDisplacement 0.6 0.6 0.3 time speed ox oy oz)
    (shift.1, shift.2, 0))

/-! ## ShapeSampler: torus ring particles of the home animation
From part_000 / part_001: r = tubeRadius * (0.5 + 0.5 * random) with
tubeRadius 6 and radius 35, point = ((35 + r cos v) cos u, (35 + r cos v) sin u,
r sin v). -/

/-- The randomized tube radius of a home ring particle (tubeRadius = 6). -/
noncomputable def homeTubeRadius (w : ℝ) : ℝ := 6 * (0.5 + 0.5 * w)

/-- A home ring (torus) particle base position, for draws u, v, w. -/
noncomputable def homeTorusPoint (u v w : ℝ) : ℝ × ℝ × ℝ :=
  ((35 + homeTubeRadius w * Real.cos v) * Real.cos u,
   (35 + homeTubeRadius w * Real.cos v) * Real.sin u,
   homeTubeRadius w * Real.sin v)

/-! ## Sweep highlight of the home animation (part_001)
sweepAngle = ((elapsed mod animationDuration) / animationDuration) * 2 pi;
angleDiff = startAngle - particleAngle normalized into [0, 2 pi) by the pair
of while loops; opacity = 0.7 + random * 0.3 when angleDiff <= sweepAngle,
else the dim constant 0.15. -/

/-- Start angle of the sweep (12 oclock), config.startAngle = pi / 2. -/
noncomputable def homeStartAngle : ℝ := Real.pi / 2

/-- The sweep angle at a given elapsed time:
(elapsed mod cycleDuration) / cycleDuration * 2 pi, where the real mod is
elapsed - cycleDuration * floor(elapsed / cycleDuration). -/
noncomputable def sweepAngle (cycleDuration elapsed : ℝ) : ℝ :=
  ((elapsed - cycleDuration * ⌊elapsed / cycleDuration⌋) / cycleDuration) * (Real.pi * 2)

/-- Normalization of an angle into [0, 2 pi), embedding the while loops
that add or subtract 2 pi until the value lies in [0, 2 pi). -/
noncomputable def normalizeAngle (a : ℝ) : ℝ :=
  a - Real.pi * 2 * ⌊a / (Real.pi * 2)⌋

/-- Ring particle opacity written by the home animate loop:
bright 0.7 + random * 0.3 when the normalized offset from the start angle is
at most the sweep angle, else the dim constant 0.15. -/
noncomputable def ringSweepOpacity (particleAngle sweep rand : ℝ) : ℝ :=
  if normalizeAngle (homeStartAngle - particleAngle) ≤ sweep then 0.7 + rand * 0.3
  else 0.15

/-! ## Fibonacci sphere placement (part_002, alarmcentrale.js)
phi = pi * (3 - sqrt 5); y = 1 - (i / (count - 1)) * 2;
radiusAtY = sqrt(1 - y * y); theta = phi * i;
point = (cos theta * radiusAtY, y, sin theta * radiusAtY) scaled by the radius. -/

/-- The golden angle pi * (3 - sqrt 5). -/
noncomputable def goldenAngle : ℝ := Real.pi * (3 - Real.sqrt 5)

/-- The y coordinate (on the unit sphere) of the i-th Fibonacci point. -/
noncomputable def fibY (i count : ℕ) : ℝ :=
  1 - ((i : ℝ) / ((count : ℝ) - 1)) * 2

/-- The horizontal radius at that y coordinate. -/
noncomputable def fibRadiusAtY (i count : ℕ) : ℝ :=
  Real.sqrt (1 - fibY i count ^ 2)

/-- The i-th Fibonacci-sphere point scaled to the configured radius. -/
noncomputable def fibSpherePoint (radius : ℝ) (i count : ℕ) : ℝ × ℝ × ℝ :=
  (Real.cos (goldenAngle * i) * fibRadiusAtY i count * radius,
   fibY i count * radius,
   Real.sin (goldenAngle * i) * fibRadiusAtY i count * radius)

/-! ## AttributeAssigner values under scrutiny -/

/-- Sphere-surface opacity of part_002 (sphereRadius = 35):
gradientOpacity = 0.15 + normalizedY * 0.85 with normalizedY = (y/35 + 1)/2;
centerBoost = 1 - (dist/35) * 0.4; value = gradientOpacity * (1 + centerBoost * 0.5). -/
noncomputable def alarmSurfaceOpacity (p : ℝ × ℝ × ℝ) : ℝ :=
  (0.15 + (p.2.1 / 35 + 1) / 2 * 0.85) *
    (1 + (1 - Real.sqrt (p.1 ^ 2 + p.2.1 ^ 2 + p.2.2 ^ 2) / 35 * 0.4) * 0.5)

/-- Particle size written at init by part_002: 1.0 + random * 0.5. -/
def sphereParticleSize (rand : ℝ) : ℝ := 1 + rand * 0.5

/-- Vertical position of an about.js particle after centering, flipping and
scaling (logoScale = 0.8, SVG height 48): y = -(py - 24) * 0.8. -/
def aboutPosY (py : ℝ) : ℝ := -(py - 24) * 0.8

/-- Vertical-gradient opacity of about.js: 0.2 + ((y + 20) / 40) * 0.6. -/
noncomputable def aboutOpacity (y : ℝ) : ℝ := 0.2 + ((y + 20) / 40) * 0.6

/-! ## Rejection sampling membership tests and retry loops -/

/-- Rounded-rectangle membership test of familyoffice.js (isInsideRoundedRect),
with the four corner-cap checks before the axis-aligned bounding test. -/
noncomputable def isInsideRoundedRect (x y width height radius : ℝ) : Prop :=
  let hw := width / 2
  let hh := height / 2
  let r := min radius (min hw hh)
  if x > hw - r ∧ y > hh - r then
    Real.sqrt ((x - (hw - r)) ^ 2 + (y - (hh - r)) ^ 2) ≤ r
  else if x > hw - r ∧ y < -hh + r then
    Real.sqrt ((x - (hw - r)) ^ 2 + (y - (-hh + r)) ^ 2) ≤ r
  else if x < -hw + r ∧ y > hh - r then
    Real.sqrt ((x - (-hw + r)) ^ 2 + (y - (hh - r)) ^ 2) ≤ r
  else if x < -hw + r ∧ y < -hh + r then
    Real.sqrt ((x - (-hw + r)) ^ 2 + (y - (-hh + r)) ^ 2) ≤ r
  else
    -hw ≤ x ∧ x ≤ hw ∧ -hh ≤ y ∧ y ≤ hh

/-- Semi-ellipsoid membership test of surveillance.js (isInsideEllipsoid):
note dy divides by the full height, not height / 2. -/
noncomputable def isInsideEllipsoid (x y z width height depth : ℝ) : Prop :=
  let dx := x / (width / 2)
  let dy := y / height
  let dz := z / (depth / 2)
  dx * dx + dy * dy + dz * dz ≤ 1

/-- Acceptance predicate of one body-face rejection attempt in
familyoffice.js: x = (r1 - 0.5) * bodyWidth, y = (r2 - 0.5) * bodyHeight with
bodyWidth 44, bodyHeight 38, cornerRadius 5. -/
noncomputable def foBodyAccepts (draw : ℝ × ℝ) : Prop :=
  isInsideRoundedRect ((draw.1 - 0.5) * 44) ((draw.2 - 0.5) * 38) 44 38 5

/-- Acceptance predicate of one body rejection attempt in surveillance.js:
x = (r1 - 0.5) * 70, y = r2 * 35, z = (r3 - 0.5) * 20, tested against the
semi-ellipsoid with width 70, height 35, depth 20. -/
noncomputable def svBodyAccepts (draw : ℝ × ℝ × ℝ) : Prop :=
  isInsideEllipsoid ((draw.1 - 0.5) * 70) (draw.2.1 * 35) ((draw.2.2 - 0.5) * 20) 70 35 20

/-- A do-while rejection loop fed by the stream of draws halts exactly when
some draw is accepted; the source loops contain no attempt counter. -/
def LoopHalts {α : Type} (accepts : α → Prop) (draws : ℕ → α) : Prop :=
  ∃ k, accepts (draws k)

/-! ## Triangle sampling of part_001 (initAboutAnimation)
sqrtR1 = sqrt r1; weights w1 = 1 - sqrtR1, w2 = sqrtR1 * (1 - r2),
w3 = sqrtR1 * r2; point = w1 * A + w2 * B + w3 * C. -/

/-- The three barycentric weights drawn from r1, r2. -/
noncomputable def triangleSampleWeights (r1 r2 : ℝ) : ℝ × ℝ × ℝ :=
  (1 - Real.sqrt r1, Real.sqrt r1 * (1 - r2), Real.sqrt r1 * r2)

/-- The sampled point w1 * A + w2 * B + w3 * C. -/
noncomputable def triangleSamplePoint (A B C : ℝ × ℝ × ℝ) (r1 r2 : ℝ) : ℝ × ℝ × ℝ :=
  (triangleSampleWeights r1 r2).1 • A + (triangleSampleWeights r1 r2).2.1 • B +
    (triangleSampleWeights r1 r2).2.2 • C

/-! ## Particle counts of the about variants (exact rational arithmetic) -/

/-- Number of iterations of a js loop for (let i = 0; i < count; i++) when
count is a (possibly fractional) positive bound. -/
def jsLoopIterations (count : ℚ) : ℕ := (Int.ceil count).toNat

/-- Particles pushed by one addBar(x, y, w, h, density) call of about.js:
count = w * h * density. -/
def addBarCount (w h density : ℚ) : ℕ := jsLoopIterations (w * h * density)

/-- Particles pushed by one addTriangle(x1, y1, x2, y2, x3, y3, density) call
of about.js: count = area * density * 10 with the shoelace area. -/
def addTriangleCount (x1 y1 x2 y2 x3 y3 density : ℚ) : ℕ :=
  jsLoopIterations (|x1 * (y2 - y3) + x2 * (y3 - y1) + x3 * (y1 - y2)| / 2 * density * 10)

/-- Total particle count produced by the fifteen addBar/addTriangle calls of
about.js (the N, V and D letter shapes), in source order. -/
def aboutActualCount : ℕ :=
  addBarCount 18 29 2.5 + addBarCount 18 29 2.5 +
  addTriangleCount 18 19 18 48 44 48 3 + addTriangleCount 18 19 44 19 44 48 3 +
  addBarCount 11 15 2.5 + addBarCount 10 8 2.5 +
  addBarCount 19 29 2.5 + addBarCount 17 29 2.5 +
  addTriangleCount 75 0 56 48 96 48 2 +
  addBarCount 18 48 2.5 + addBarCount 22 8 2.5 + addBarCount 22 8 2.5 +
  addBarCount 12 32 2.5 +
  addTriangleCount 140 0 140 8 152 8 2.5 + addTriangleCount 140 48 140 40 152 40 2.5

/-- config.particleCount of about.js. -/
def aboutConfigParticleCount : ℕ := 20000

/-- config.particleCount of the part_001 about variant. -/
def part001AboutParticleCount : ℕ := 15000

/-- The particle list built by the part_001 about generation loop: one point
pushed per index i in 0..particleCount-1 (the body, which picks a face and a
point in it from random draws, is abstracted as samplePoint). -/
def part001AboutParticles (samplePoint : ℕ → ℝ × ℝ × ℝ) : List (ℝ × ℝ × ℝ) :=
  (List.range part001AboutParticleCount).map samplePoint

/-! ## FrameScheduler state and tick (familyoffice.js / surveillance.js) -/

/-- The caller-owned animation state: global time, smoothed and target
rotation, and the parallel per-particle buffers. -/
structure AnimState where
  time : ℝ
  currentRotationX : ℝ
  currentRotationY : ℝ
  targetRotationX : ℝ
  targetRotationY : ℝ
  positions : ℕ → ℝ × ℝ × ℝ
  originalPositions : ℕ → ℝ × ℝ × ℝ
  floatOffsets : ℕ → ℝ × ℝ × ℝ
  floatSpeeds : ℕ → ℝ
  opacities : ℕ → ℝ
  sizes : ℕ → ℝ

/-- One animate() tick shared by familyoffice.js and surveillance.js:
time += 0.008; smooth the rotation; rewrite positions[i] from
originalPositions[i] plus the float displacement, for every particle index;
no other buffer is written. -/
noncomputable def animTick (particleCount : ℕ) (smoothing : ℝ) (s : AnimState) : AnimState :=
  let time := s.time + 0.008
  { s with
    time := time
    currentRotationX := s.currentRotationX + (s.targetRotationX - s.currentRotationX) * smoothing
    currentRotationY := s.currentRotationY + (s.targetRotationY - s.currentRotationY) * smoothing
    positions := fun i =>
      if i < particleCount then
        add3 (s.originalPositions i)
          (floatDisplacement 0.5 0.5 0.3 time (s.floatSpeeds i) (s.floatOffsets i).1
            (s.floatOffsets i).2.1 (s.floatOffsets i).2.2)
      else s.positions i }

/-- The familyoffice.js tick: 25000 particles, smoothing 0.025. -/
noncomputable def familyOfficeTick : AnimState → AnimState := animTick 25000 0.025

/-- The surveillance.js tick: 30000 particles, smoothing 0.03. -/
noncomputable def surveillanceTick : AnimState → AnimState := animTick 30000 0.03

/-! ## Helper lemmas -/

/-- The Euclidean length is at most the sum of absolute components. -/
theorem norm3_le_sum_abs (x y z : ℝ) : norm3 x y z ≤ |x| + |y| + |z| := by
  rw [norm3]
  refine Real.sqrt_le_iff.mpr ⟨by positivity, ?_⟩
  nlinarith [abs_nonneg x, abs_nonneg y, abs_nonneg z, sq_abs x, sq_abs y, sq_abs z,
    mul_nonneg (abs_nonneg x) (abs_nonneg y), mul_nonneg (abs_nonneg x) (abs_nonneg z),
    mul_nonneg (abs_nonneg y) (abs_nonneg z)]

/-- Closed form of the smoothing recurrence from rest. -/
theorem currentFromRest_closed_form (a t : ℝ) (n : ℕ) :
    currentFromRest a t n = t * (1 - (1 - a) ^ n) := by
  induction n with
  | zero => simp [currentFromRest]
  | succ n ih => simp only [currentFromRest, smoothingStep, ih, pow_succ]; ring

/-- The Fibonacci y coordinate lies in [-1, 1] for indices below the count. -/
theorem fibY_bounds (i count : ℕ) (h2 : 2 ≤ count) (hi : i < count) :
    -1 ≤ fibY i count ∧ fibY i count ≤ 1 := by
  have hc : (2 : ℝ) ≤ (count : ℝ) := by exact_mod_cast h2
  have hi' : (i : ℝ) + 1 ≤ (count : ℝ) := by exact_mod_cast hi
  have h0 : (0 : ℝ) ≤ (i : ℝ) := Nat.cast_nonneg i
  have hpos : (0 : ℝ) < (count : ℝ) - 1 := by linarith
  have hratio0 : 0 ≤ (i : ℝ) / ((count : ℝ) - 1) := div_nonneg h0 hpos.le
  have hratio1 : (i : ℝ) / ((count : ℝ) - 1) ≤ 1 := (div_le_one hpos).mpr (by linarith)
  rw [fibY]
  constructor <;> linarith

/-- Every Fibonacci-sphere point lies exactly on the sphere of the given
radius: the sum of squared coordinates equals the squared radius. -/
theorem fibSpherePoint_norm_sq (radius : ℝ) (i count : ℕ)
    (h2 : 2 ≤ count) (hi : i < count) :
    (fibSpherePoint radius i count).1 ^ 2 + (fibSpherePoint radius i count).2.1 ^ 2 +
      (fibSpherePoint radius i count).2.2 ^ 2 = radius ^ 2 := by
  obtain ⟨hy1, hy2⟩ := fibY_bounds i count h2 hi
  have hnn : 0 ≤ 1 - fibY i count ^ 2 := by nlinarith
  have hr : fibRadiusAtY i count ^ 2 = 1 - fibY i count ^ 2 := by
    rw [fibRadiusAtY]; exact Real.sq_sqrt hnn
  have htrig := Real.sin_sq_add_cos_sq (goldenAngle * i)
  simp only [fibSpherePoint]
  linear_combination (fibRadiusAtY i count ^ 2 * radius ^ 2) * htrig + radius ^ 2 * hr

/-- The sweep angle vanishes at elapsed = 0. -/
theorem sweepAngle_zero (cycleDuration : ℝ) : sweepAngle cycleDuration 0 = 0 := by
  simp [sweepAngle]

/-- The while-loop normalization is nonnegative. -/
theorem normalizeAngle_nonneg (a : ℝ) : 0 ≤ normalizeAngle a := by
  have hT : (0 : ℝ) < Real.pi * 2 := by positivity
  have h2 : (⌊a / (Real.pi * 2)⌋ : ℝ) * (Real.pi * 2) ≤ a :=
    (le_div_iff₀ hT).mp (Int.floor_le (a / (Real.pi * 2)))
  rw [normalizeAngle]
  nlinarith

/-- The while-loop normalization is below 2 pi. -/
theorem normalizeAngle_lt_two_pi (a : ℝ) : normalizeAngle a < Real.pi * 2 := by
  have hT : (0 : ℝ) < Real.pi * 2 := by positivity
  have h2 : a < ((⌊a / (Real.pi * 2)⌋ : ℝ) + 1) * (Real.pi * 2) :=
    (div_lt_iff₀ hT).mp (Int.lt_floor_add_one (a / (Real.pi * 2)))
  rw [normalizeAngle]
  nlinarith

/-! ## Claim theorems -/

/-- C10: every point produced by the Fibonacci-sphere surface generator lies
exactly on the sphere of the configured radius: for 0 <= i < count the scaled
point (cos theta * radiusAtY, y, sin theta * radiusAtY) * R satisfies
x^2 + y^2 + z^2 = R^2 in exact real arithmetic. -/
theorem fibonacci_sphere_point_on_sphere (radius : ℝ) (i count : ℕ)
    (h2 : 2 ≤ count) (hi : i < count) :
    (fibSpherePoint radius i count).1 ^ 2 + (fibSpherePoint radius i count).2.1 ^ 2 +
      (fibSpherePoint radius i count).2.2 ^ 2 = radius ^ 2 :=
  fibSpherePoint_norm_sq radius i count h2 hi

/-- Witness for C10 at the alarmcentrale.js configuration radius = 45,
satelliteCount = 40, index 0. -/
theorem fibonacci_sphere_point_on_sphere_witness :
    (fibSpherePoint 45 0 40).1 ^ 2 + (fibSpherePoint 45 0 40).2.1 ^ 2 +
      (fibSpherePoint 45 0 40).2.2 ^ 2 = (45 : ℝ) ^ 2 :=
  fibonacci_sphere_point_on_sphere 45 0 40 (by norm_num) (by norm_num)

/-- C9: the per-tick update of familyoffice.js and surveillance.js writes only
the position buffer (and, in variants with dynamic highlights, the opacity
buffer): the stored originalPositions, floatOffsets, floatSpeeds, sizes and
(here also) opacities are never written by a tick, and the new positions are
recomputed from the unchanged originalPositions. -/
theorem tick_mutates_only_position_buffer (s : AnimState) :
    ((familyOfficeTick s).originalPositions = s.originalPositions ∧
      (familyOfficeTick s).floatOffsets = s.floatOffsets ∧
      (familyOfficeTick s).floatSpeeds = s.floatSpeeds ∧
      (familyOfficeTick s).sizes = s.sizes ∧
      (familyOfficeTick s).opacities = s.opacities ∧
      (familyOfficeTick s).positions = fun i =>
        if i < 25000 then
          add3 (s.originalPositions i)
            (floatDisplacement 0.5 0.5 0.3 (s.time + 0.008) (s.floatSpeeds i)
              (s.floatOffsets i).1 (s.floatOffsets i).2.1 (s.floatOffsets i).2.2)
        else s.positions i) ∧
    ((surveillanceTick s).originalPositions = s.originalPositions ∧
      (surveillanceTick s).floatOffsets = s.floatOffsets ∧
      (surveillanceTick s).floatSpeeds = s.floatSpeeds ∧
      (surveillanceTick s).sizes = s.sizes ∧
      (surveillanceTick s).opacities = s.opacities ∧
      (surveillanceTick s).positions = fun i =>
        if i < 30000 then
          add3 (s.originalPositions i)
            (floatDisplacement 0.5 0.5 0.3 (s.time + 0.008) (s.floatSpeeds i)
              (s.floatOffsets i).1 (s.floatOffsets i).2.1 (s.floatOffsets i).2.2)
        else s.positions i) :=
  ⟨⟨rfl, rfl, rfl, rfl, rfl, rfl⟩, ⟨rfl, rfl, rfl, rfl, rfl, rfl⟩⟩

/-- C6: every base point of the home torus sampler (majorRadius 35,
tubeRadius 6, randomized tube radius r = 6 * (0.5 + 0.5 * random)) has
Euclidean distance from the origin within [29, 41]. -/
theorem torus_point_distance_bounds (u v w : ℝ) (hw0 : 0 ≤ w) (hw1 : w < 1) :
    29 ≤ norm3 (homeTorusPoint u v w).1 (homeTorusPoint u v w).2.1
        (homeTorusPoint u v w).2.2 ∧
      norm3 (homeTorusPoint u v w).1 (homeTorusPoint u v w).2.1
        (homeTorusPoint u v w).2.2 ≤ 41 := by
  set r := homeTubeRadius w with hrdef
  have hr3 : 3 ≤ r := by rw [hrdef, homeTubeRadius]; nlinarith
  have hr6 : r ≤ 6 := by rw [hrdef, homeTubeRadius]; nlinarith
  have hu := Real.sin_sq_add_cos_sq u
  have hv := Real.sin_sq_add_cos_sq v
  have hcv1 := Real.neg_one_le_cos v
  have hcv2 := Real.cos_le_one v
  have hkey : (homeTorusPoint u v w).1 ^ 2 + (homeTorusPoint u v w).2.1 ^ 2 +
      (homeTorusPoint u v w).2.2 ^ 2 = 1225 + 70 * (r * Real.cos v) + r ^ 2 := by
    simp only [homeTorusPoint, ← hrdef]
    linear_combination ((35 + r * Real.cos v) ^ 2) * hu + r ^ 2 * hv
  constructor
  · rw [norm3, hkey, show (29 : ℝ) = Real.sqrt (29 ^ 2) from
      (Real.sqrt_sq (by norm_num)).symm]
    apply Real.sqrt_le_sqrt
    nlinarith [mul_le_mul_of_nonneg_left hcv1 (by linarith : (0 : ℝ) ≤ r),
      mul_nonneg (by linarith : (0 : ℝ) ≤ 6 - r) (by linarith : (0 : ℝ) ≤ 64 - r)]
  · rw [norm3, hkey, show (41 : ℝ) = Real.sqrt (41 ^ 2) from
      (Real.sqrt_sq (by norm_num)).symm]
    apply Real.sqrt_le_sqrt
    nlinarith [mul_le_mul_of_nonneg_left hcv2 (by linarith : (0 : ℝ) ≤ r),
      mul_nonneg (by linarith : (0 : ℝ) ≤ 6 - r) (by linarith : (0 : ℝ) ≤ 76 + r)]

/-- Witness for C6 at the concrete draw u = v = w = 0. -/
theorem torus_point_distance_bounds_witness :
    29 ≤ norm3 (homeTorusPoint 0 0 0).1 (homeTorusPoint 0 0 0).2.1
        (homeTorusPoint 0 0 0).2.2 ∧
      norm3 (homeTorusPoint 0 0 0).1 (homeTorusPoint 0 0 0).2.1
        (homeTorusPoint 0 0 0).2.2 ≤ 41 :=
  torus_point_distance_bounds 0 0 0 le_rfl (by norm_num)

/-- C7: the part_001 triangle sampler draws r1, r2 in [0,1), sets
s = sqrt r1 and uses weights (1 - s, s * (1 - r2), s * r2); the weights are
nonnegative and sum to 1, so the sampled point lies in the convex hull of
the triangle vertices. -/
theorem triangle_sample_point_in_hull (A B C : ℝ × ℝ × ℝ) (r1 r2 : ℝ)
    (h10 : 0 ≤ r1) (h11 : r1 < 1) (h20 : 0 ≤ r2) (h21 : r2 < 1) :
    (0 ≤ (triangleSampleWeights r1 r2).1 ∧ 0 ≤ (triangleSampleWeights r1 r2).2.1 ∧
      0 ≤ (triangleSampleWeights r1 r2).2.2) ∧
    (triangleSampleWeights r1 r2).1 + (triangleSampleWeights r1 r2).2.1 +
      (triangleSampleWeights r1 r2).2.2 = 1 ∧
    triangleSamplePoint A B C r1 r2 ∈ convexHull ℝ ({A, B, C} : Set (ℝ × ℝ × ℝ)) := by
  have hs0 : 0 ≤ Real.sqrt r1 := Real.sqrt_nonneg r1
  have hs1 : Real.sqrt r1 ≤ 1 := by
    rw [show (1 : ℝ) = Real.sqrt 1 from Real.sqrt_one.symm]
    exact Real.sqrt_le_sqrt (by linarith)
  have hw1 : 0 ≤ (triangleSampleWeights r1 r2).1 := by
    simp only [triangleSampleWeights]; linarith
  have hw2 : 0 ≤ (triangleSampleWeights r1 r2).2.1 := by
    simp only [triangleSampleWeights]; nlinarith
  have hw3 : 0 ≤ (triangleSampleWeights r1 r2).2.2 := by
    simp only [triangleSampleWeights]; nlinarith
  have hsum : (triangleSampleWeights r1 r2).1 + (triangleSampleWeights r1 r2).2.1 +
      (triangleSampleWeights r1 r2).2.2 = 1 := by
    simp only [triangleSampleWeights]; ring
  refine ⟨⟨hw1, hw2, hw3⟩, hsum, ?_⟩
  have hrepr : triangleSamplePoint A B C r1 r2 =
      ∑ j : Fin 3, (![(triangleSampleWeights r1 r2).1, (triangleSampleWeights r1 r2).2.1,
        (triangleSampleWeights r1 r2).2.2] j) • (![A, B, C] j) := by
    simp [Fin.sum_univ_three, triangleSamplePoint]
  rw [hrepr]
  apply (convex_convexHull ℝ ({A, B, C} : Set (ℝ × ℝ × ℝ))).sum_mem
  · intro j _
    fin_cases j
    · simpa using hw1
    · simpa using hw2
    · simpa using hw3
  · simpa [Fin.sum_univ_three] using hsum
  · intro j _
    apply subset_convexHull
    fin_cases j <;> simp

/-- Witness for C7 at the degenerate triangle with all vertices at the origin
and draws r1 = r2 = 0. -/
theorem triangle_sample_point_in_hull_witness :
    triangleSamplePoint (0, 0, 0) (0, 0, 0) (0, 0, 0) 0 0 ∈
      convexHull ℝ ({(0, 0, 0), (0, 0, 0), (0, 0, 0)} : Set (ℝ × ℝ × ℝ)) :=
  (triangle_sample_point_in_hull (0, 0, 0) (0, 0, 0) (0, 0, 0) 0 0 le_rfl (by norm_num)
    le_rfl (by norm_num)).2.2

/-- C3: for the per-tick update current += (target - current) * smoothing with
smoothing in (0,1), a constant target and ticks from rest, the error contracts
by the factor (1 - smoothing) each tick without changing sign (monotone
convergence, no overshoot), and current is within eps of the target after at
most ceil(ln eps / ln (1 - smoothing)) ticks; the hypothesis |target| <= 1
holds for every target the code produces (mouse coordinate in [-1,1] times a
maxRotation of at most 0.2). -/
theorem smoothing_monotone_convergence (smoothing target eps : ℝ) (n : ℕ)
    (h0 : 0 < smoothing) (h1 : smoothing < 1) (ht : |target| ≤ 1) (he : 0 < eps)
    (hn : ⌈Real.log eps / Real.log (1 - smoothing)⌉ ≤ (n : ℤ)) :
    (∀ m : ℕ, target - currentFromRest smoothing target (m + 1) =
        (1 - smoothing) * (target - currentFromRest smoothing target m)) ∧
    (∀ m : ℕ, |target - currentFromRest smoothing target (m + 1)| ≤
        |target - currentFromRest smoothing target m|) ∧
    |target - currentFromRest smoothing target n| ≤ eps := by
  have hb0 : (0 : ℝ) < 1 - smoothing := by linarith
  have hb1 : 1 - smoothing < 1 := by linarith
  have hstep : ∀ m : ℕ, target - currentFromRest smoothing target (m + 1) =
      (1 - smoothing) * (target - currentFromRest smoothing target m) := by
    intro m
    rw [currentFromRest_closed_form, currentFromRest_closed_form, pow_succ]
    ring
  refine ⟨hstep, ?_, ?_⟩
  · intro m
    rw [hstep m, abs_mul, abs_of_pos hb0]
    nlinarith [abs_nonneg (target - currentFromRest smoothing target m)]
  · have herr : |target - currentFromRest smoothing target n| =
        |target| * (1 - smoothing) ^ n := by
      rw [currentFromRest_closed_form,
        show target - target * (1 - (1 - smoothing) ^ n) =
          target * (1 - smoothing) ^ n from by ring,
        abs_mul, abs_of_nonneg (pow_nonneg hb0.le n)]
    rw [herr]
    have hpownn : (0 : ℝ) ≤ (1 - smoothing) ^ n := pow_nonneg hb0.le n
    have hpow1 : (1 - smoothing) ^ n ≤ 1 := pow_le_one₀ hb0.le hb1.le
    rcases le_or_lt 1 eps with heps1 | hepslt
    · calc |target| * (1 - smoothing) ^ n ≤ 1 * 1 :=
            mul_le_mul ht hpow1 hpownn zero_le_one
        _ ≤ eps := by linarith
    · have hlogneg : Real.log (1 - smoothing) < 0 := Real.log_neg hb0 hb1
      have hn' : Real.log eps / Real.log (1 - smoothing) ≤ (n : ℝ) := by
        exact_mod_cast Int.ceil_le.mp hn
      have hmul : (n : ℝ) * Real.log (1 - smoothing) ≤ Real.log eps :=
        (div_le_iff_of_neg hlogneg).mp hn'
      have hlogpow : Real.log ((1 - smoothing) ^ n) ≤ Real.log eps := by
        rw [Real.log_pow]; exact hmul
      have hpow : (1 - smoothing) ^ n ≤ eps :=
        (Real.log_le_log_iff (pow_pos hb0 n) he).mp hlogpow
      calc |target| * (1 - smoothing) ^ n ≤ 1 * (1 - smoothing) ^ n :=
            mul_le_mul_of_nonneg_right ht hpownn
        _ ≤ eps := by linarith

/-- Witness for C3 at the surveillance.js constants smoothing = 0.03,
target = 0.12 (mouse fully right times maxRotation), eps = 1, n = 0. -/
theorem smoothing_monotone_convergence_witness :
    |(0.12 : ℝ) - currentFromRest 0.03 0.12 0| ≤ 1 :=
  (smoothing_monotone_convergence 0.03 0.12 1 0 (by norm_num) (by norm_num)
    (by rw [abs_of_nonneg (by norm_num : (0 : ℝ) ≤ 0.12)]; norm_num) (by norm_num)
    (by simp)).2.2

/-- C1 counterexample: at elapsed = 0 the sweep angle is 0, and a ring
particle whose stored angle equals the start angle (normalized offset exactly
0) is written the bright opacity 0.7 + random * 0.3, not the dim constant
0.15 — refuting the sentence that at elapsed = 0 all sweep-region particles
are dim. -/
theorem sweep_zero_offset_particle_bright :
    ringSweepOpacity homeStartAngle (sweepAngle 20000 0) 0 = 0.7 ∧ (0.7 : ℝ) ≠ 0.15 := by
  have hcond : normalizeAngle (homeStartAngle - homeStartAngle) ≤ sweepAngle 20000 0 := by
    rw [sweepAngle_zero, sub_self]
    simp [normalizeAngle]
  constructor
  · rw [ringSweepOpacity, if_pos hcond]
    norm_num
  · norm_num

/-- C1 amended: the normalized angular offset lies in [0, 2 pi); a sweep
particle is written the bright opacity 0.7 + random * 0.3 (a value in
[0.7, 1)) exactly when its offset is at most the sweep angle and the dim
constant 0.15 otherwise; at elapsed = 0 every particle with strictly positive
offset is dim, while a particle at offset exactly 0 is bright by the <=
convention. -/
theorem sweep_highlight_amended (elapsed cycleDuration particleAngle rand : ℝ)
    (hD : 0 < cycleDuration) (hr0 : 0 ≤ rand) (hr1 : rand < 1) :
    (0 ≤ normalizeAngle (homeStartAngle - particleAngle) ∧
      normalizeAngle (homeStartAngle - particleAngle) < Real.pi * 2) ∧
    (normalizeAngle (homeStartAngle - particleAngle) ≤ sweepAngle cycleDuration elapsed →
      ringSweepOpacity particleAngle (sweepAngle cycleDuration elapsed) rand =
        0.7 + rand * 0.3 ∧
      0.7 ≤ 0.7 + rand * 0.3 ∧ 0.7 + rand * 0.3 < 1) ∧
    (sweepAngle cycleDuration elapsed < normalizeAngle (homeStartAngle - particleAngle) →
      ringSweepOpacity particleAngle (sweepAngle cycleDuration elapsed) rand = 0.15) ∧
    (0 < normalizeAngle (homeStartAngle - particleAngle) →
      ringSweepOpacity particleAngle (sweepAngle cycleDuration 0) rand = 0.15) := by
  refine ⟨⟨normalizeAngle_nonneg _, normalizeAngle_lt_two_pi _⟩, ?_, ?_, ?_⟩
  · intro h
    rw [ringSweepOpacity, if_pos h]
    exact ⟨rfl, by linarith, by linarith⟩
  · intro h
    rw [ringSweepOpacity, if_neg (not_le.mpr h)]
  · intro h
    rw [ringSweepOpacity, sweepAngle_zero, if_neg (not_le.mpr h)]

/-- Witness for C1 amended at elapsed = 0, cycleDuration = 20000, a particle
at the start angle, random draw 0. -/
theorem sweep_highlight_amended_witness :
    ringSweepOpacity homeStartAngle (sweepAngle 20000 0) 0 = 0.7 + 0 * 0.3 ∧
    0.7 ≤ 0.7 + (0 : ℝ) * 0.3 ∧ 0.7 + (0 : ℝ) * 0.3 < 1 :=
  (sweep_highlight_amended 0 20000 homeStartAngle 0 (by norm_num) le_rfl
    (by norm_num)).2.1 (by rw [sweepAngle_zero, sub_self]; simp [normalizeAngle])

/-- C2 counterexample: in the disc-iris variant the per-tick position adds the
smoothed eye shift, so with eye shift (2, 0) and vanishing sine terms the
distance from the base position is 2, exceeding the amplitude sum
0.6 + 0.6 + 0.3 — refuting the claim that currentPosition is the pure sine
displacement bounded by ax + ay + az for every variant. -/
theorem iris_eye_shift_breaks_bound :
    ¬ dist3 (discIrisCurrentPosition (0, 0, 0) (2, 0) 0 1 0 0 0) (0, 0, 0) ≤
      0.6 + 0.6 + 0.3 := by
  have hpos : discIrisCurrentPosition (0, 0, 0) (2, 0) 0 1 0 0 0 = ((2 : ℝ), (0 : ℝ), (0 : ℝ)) := by
    simp [discIrisCurrentPosition, add3, floatDisplacement]
  rw [hpos]
  have h4 : ((2 : ℝ) - 0) ^ 2 + ((0 : ℝ) - 0) ^ 2 + ((0 : ℝ) - 0) ^ 2 = 2 ^ 2 := by norm_num
  rw [dist3, norm3, h4, Real.sqrt_sq (by norm_num)]
  norm_num

/-- C2 amended: in every variant the organic float displacement is the pure
sine function of time and the fixed particle parameters, with no accumulation;
the familyoffice position equals base + displacement and stays within
0.5 + 0.5 + 0.3 of the base, while the disc-iris position equals
base + displacement + (shiftX, shiftY, 0) and is bounded only by
0.6 + 0.6 + 0.3 plus the eye-shift magnitude. -/
theorem float_displacement_amended (base : ℝ × ℝ × ℝ) (shift : ℝ × ℝ)
    (time speed ox oy oz : ℝ) :
    familyOfficeCurrentPosition base time speed ox oy oz =
      add3 base (floatDisplacement 0.5 0.5 0.3 time speed ox oy oz) ∧
    dist3 (familyOfficeCurrentPosition base time speed ox oy oz) base ≤ 0.5 + 0.5 + 0.3 ∧
    discIrisCurrentPosition base shift time speed ox oy oz =
      add3 base (add3 (floatDisplacement 0.6 0.6 0.3 time speed ox oy oz)
        (shift.1, shift.2, 0)) ∧
    dist3 (discIrisCurrentPosition base shift time speed ox oy oz) base ≤
      0.6 + 0.6 + 0.3 + (|shift.1| + |shift.2|) := by
  have hdist : ∀ d : ℝ × ℝ × ℝ, dist3 (add3 base d) base = norm3 d.1 d.2.1 d.2.2 := by
    intro d
    rw [dist3]
    simp only [add3]
    congr 1 <;> ring
  have habs : ∀ t amp : ℝ, 0 ≤ amp → |Real.sin t * amp| ≤ amp := by
    intro t amp h
    rw [abs_mul, abs_of_nonneg h]
    exact mul_le_of_le_one_left h (Real.abs_sin_le_one t)
  refine ⟨rfl, ?_, rfl, ?_⟩
  · rw [familyOfficeCurrentPosition, hdist]
    refine le_trans (norm3_le_sum_abs _ _ _) ?_
    simp only [floatDisplacement]
    have h1 := habs (time * speed + ox) 0.5 (by norm_num)
    have h2 := habs (time * speed * 0.8 + oy) 0.5 (by norm_num)
    have h3 := habs (time * speed * 0.6 + oz) 0.3 (by norm_num)
    linarith
  · rw [discIrisCurrentPosition, hdist]
    refine le_trans (norm3_le_sum_abs _ _ _) ?_
    simp only [add3, floatDisplacement]
    have h1 := habs (time * speed + ox) 0.6 (by norm_num)
    have h2 := habs (time * speed * 0.8 + oy) 0.6 (by norm_num)
    have h3 := habs (time * speed * 0.6 + oz) 0.3 (by norm_num)
    have ha := abs_add (Real.sin (time * speed + ox) * 0.6) shift.1
    have hb := abs_add (Real.sin (time * speed * 0.8 + oy) * 0.6) shift.2
    have hc : |Real.sin (time * speed * 0.6 + oz) * 0.3 + 0| =
        |Real.sin (time * speed * 0.6 + oz) * 0.3| := by rw [add_zero]
    linarith

/-- C4 counterexample: the part_002 sphere-surface opacity at the first
particle (the top of the sphere) evaluates to 1.3, outside [0, 1] — the
gradient reaches 1 there and the center boost multiplies it by 1.3. -/
theorem alarm_opacity_exceeds_one :
    alarmSurfaceOpacity (fibSpherePoint 35 0 20000) = 1.3 ∧
    ¬ alarmSurfaceOpacity (fibSpherePoint 35 0 20000) ≤ 1 := by
  have hy : fibY 0 20000 = 1 := by rw [fibY]; norm_num
  have hrad : fibRadiusAtY 0 20000 = 0 := by
    rw [fibRadiusAtY, hy]
    norm_num [Real.sqrt_zero]
  have hpt : fibSpherePoint 35 0 20000 = ((0 : ℝ), (35 : ℝ), (0 : ℝ)) := by
    rw [fibSpherePoint, hy, hrad]
    norm_num
  have hsqrt : Real.sqrt ((0 : ℝ) ^ 2 + 35 ^ 2 + 0 ^ 2) = 35 := by
    rw [show (0 : ℝ) ^ 2 + 35 ^ 2 + 0 ^ 2 = 35 ^ 2 from by norm_num,
      Real.sqrt_sq (by norm_num)]
  have hval : alarmSurfaceOpacity (fibSpherePoint 35 0 20000) = 1.3 := by
    rw [hpt, alarmSurfaceOpacity]
    simp only
    rw [hsqrt]
    norm_num
  exact ⟨hval, by rw [hval]; norm_num⟩

/-- C4 amended: sizes stay within their configured bounds and the about.js
vertical-gradient opacity stays within [0, 1], but the part_002 sphere-surface
opacity lies in [0.195, 1.3] — every surface particle sits at distance exactly
35 from the center, so the boost multiplies the gradient by 1.3 and the value
exceeds 1 near the top of the sphere. -/
theorem opacity_size_bounds_amended (i count : ℕ) (rand py : ℝ)
    (h2 : 2 ≤ count) (hi : i < count) (hr0 : 0 ≤ rand) (hr1 : rand < 1)
    (hpy0 : 0 ≤ py) (hpy1 : py ≤ 48) :
    0.195 ≤ alarmSurfaceOpacity (fibSpherePoint 35 i count) ∧
    alarmSurfaceOpacity (fibSpherePoint 35 i count) ≤ 1.3 ∧
    1 ≤ sphereParticleSize rand ∧ sphereParticleSize rand < 1.5 ∧
    0 ≤ aboutOpacity (aboutPosY py) ∧ aboutOpacity (aboutPosY py) ≤ 1 := by
  obtain ⟨hy1, hy2⟩ := fibY_bounds i count h2 hi
  have hsq := fibSpherePoint_norm_sq 35 i count h2 hi
  have hsqrt : Real.sqrt ((fibSpherePoint 35 i count).1 ^ 2 +
      (fibSpherePoint 35 i count).2.1 ^ 2 + (fibSpherePoint 35 i count).2.2 ^ 2) = 35 := by
    rw [hsq, Real.sqrt_sq (by norm_num)]
  have hy35 : (fibSpherePoint 35 i count).2.1 = fibY i count * 35 := rfl
  have hopac : alarmSurfaceOpacity (fibSpherePoint 35 i count) =
      (0.15 + (fibY i count + 1) / 2 * 0.85) * 1.3 := by
    rw [alarmSurfaceOpacity, hsqrt, hy35]
    ring
  refine ⟨?_, ?_, ?_, ?_, ?_, ?_⟩
  · rw [hopac]; nlinarith
  · rw [hopac]; nlinarith
  · rw [sphereParticleSize]; linarith
  · rw [sphereParticleSize]; linarith
  · rw [aboutOpacity, aboutPosY]; nlinarith
  · rw [aboutOpacity, aboutPosY]; nlinarith

/-- Witness for C4 amended at the first sphere particle, random draw 0 and an
about.js particle at SVG height 0. -/
theorem opacity_size_bounds_amended_witness :
    0.195 ≤ alarmSurfaceOpacity (fibSpherePoint 35 0 20000) ∧
    alarmSurfaceOpacity (fibSpherePoint 35 0 20000) ≤ 1.3 ∧
    1 ≤ sphereParticleSize 0 ∧ sphereParticleSize 0 < 1.5 ∧
    0 ≤ aboutOpacity (aboutPosY 0) ∧ aboutOpacity (aboutPosY 0) ≤ 1 :=
  opacity_size_bounds_amended 0 20000 0 0 (by norm_num) (by norm_num) le_rfl (by norm_num)
    le_rfl (by norm_num)

/-- A corner draw of the familyoffice body-face sampler that fails the
rounded-rectangle membership test. -/
theorem foBodyAccepts_corner_reject : ¬ foBodyAccepts (0.99, 0.99) := by
  intro h
  simp only [foBodyAccepts, isInsideRoundedRect] at h
  have hmin : min (5 : ℝ) (min (44 / 2) (38 / 2)) = 5 := by norm_num [min_def]
  rw [hmin, if_pos (by norm_num)] at h
  rw [Real.sqrt_le_left (by norm_num : (0 : ℝ) ≤ 5)] at h
  norm_num at h

/-- A shoulder-corner draw of the surveillance body sampler that fails the
semi-ellipsoid membership test. -/
theorem svBodyAccepts_edge_reject : ¬ svBodyAccepts (0.99, 0.99, 0.5) := by
  intro h
  simp only [svBodyAccepts, isInsideEllipsoid] at h
  norm_num at h

/-- The central draw passes the rounded-rectangle membership test. -/
theorem foBodyAccepts_center : foBodyAccepts (0.5, 0.5) := by
  simp only [foBodyAccepts, isInsideRoundedRect]
  have hmin : min (5 : ℝ) (min (44 / 2) (38 / 2)) = 5 := by norm_num [min_def]
  rw [hmin, if_neg (by norm_num), if_neg (by norm_num), if_neg (by norm_num),
    if_neg (by norm_num)]
  norm_num

/-- A near-central draw passes the semi-ellipsoid membership test. -/
theorem svBodyAccepts_center : svBodyAccepts (0.5, 0.1, 0.5) := by
  simp only [svBodyAccepts, isInsideEllipsoid]
  norm_num

/-- C5 counterexample: the familyoffice.js body-face do-while loop has no
attempt counter; on the constant draw stream that always lands outside the
rounded corner it never halts, so the generator can run an unbounded
rejection loop with no fallback. -/
theorem rejection_sampler_no_budget_counterexample :
    ¬ LoopHalts foBodyAccepts (fun _ => (0.99, 0.99)) := by
  rintro ⟨k, hk⟩
  exact foBodyAccepts_corner_reject hk

/-- C5 amended: the rounded-rectangle and semi-ellipsoid rejection samplers
retry with no maximum attempt count and no deterministic fallback: the
do-while halts exactly when some draw passes the membership test — it halts
on streams containing an accepted draw, and runs forever on the exhibited
all-rejecting streams. -/
theorem rejection_loops_amended :
    (¬ LoopHalts foBodyAccepts (fun _ => (0.99, 0.99))) ∧
    (¬ LoopHalts svBodyAccepts (fun _ => (0.99, 0.99, 0.5))) ∧
    LoopHalts foBodyAccepts (fun _ => (0.5, 0.5)) ∧
    LoopHalts svBodyAccepts (fun _ => (0.5, 0.1, 0.5)) := by
  refine ⟨?_, ?_, ⟨0, foBodyAccepts_center⟩, ⟨0, svBodyAccepts_center⟩⟩
  · rintro ⟨k, hk⟩
    exact foBodyAccepts_corner_reject hk
  · rintro ⟨k, hk⟩
    exact svBodyAccepts_edge_reject hk

/-- Evaluation rule for the loop iteration count: the count is n when the
bound lies in (n - 1, n]. -/
theorem jsLoopIterations_eq (q : ℚ) (n : ℕ) (h1 : (n : ℚ) - 1 < q) (h2 : q ≤ (n : ℚ)) :
    jsLoopIterations q = n := by
  rw [jsLoopIterations]
  have hc : ⌈q⌉ = (n : ℤ) := by
    rw [Int.ceil_eq_iff]
    constructor
    · push_cast
      linarith
    · push_cast
      linarith
  rw [hc, Int.toNat_natCast]

/-- Evaluation rule for one addBar call. -/
theorem addBarCount_eq (w h d : ℚ) (n : ℕ) (h1 : (n : ℚ) - 1 < w * h * d)
    (h2 : w * h * d ≤ (n : ℚ)) : addBarCount w h d = n :=
  jsLoopIterations_eq _ n h1 h2

/-- Evaluation rule for one addTriangle call. -/
theorem addTriangleCount_eq (x1 y1 x2 y2 x3 y3 d : ℚ) (n : ℕ)
    (h1 : (n : ℚ) - 1 < |x1 * (y2 - y3) + x2 * (y3 - y1) + x3 * (y1 - y2)| / 2 * d * 10)
    (h2 : |x1 * (y2 - y3) + x2 * (y3 - y1) + x3 * (y1 - y2)| / 2 * d * 10 ≤ (n : ℚ)) :
    addTriangleCount x1 y1 x2 y2 x3 y3 d = n :=
  jsLoopIterations_eq _ n h1 h2

/-- The fifteen about.js generator calls produce 54054 particles in total. -/
theorem aboutActualCount_value : aboutActualCount = 54054 := by
  rw [aboutActualCount,
    addBarCount_eq 18 29 2.5 1305 (by norm_num) (by norm_num),
    addTriangleCount_eq 18 19 18 48 44 48 3 11310 (by norm_num) (by norm_num),
    addTriangleCount_eq 18 19 44 19 44 48 3 11310 (by norm_num) (by norm_num),
    addBarCount_eq 11 15 2.5 413 (by norm_num) (by norm_num),
    addBarCount_eq 10 8 2.5 200 (by norm_num) (by norm_num),
    addBarCount_eq 19 29 2.5 1378 (by norm_num) (by norm_num),
    addBarCount_eq 17 29 2.5 1233 (by norm_num) (by norm_num),
    addTriangleCount_eq 75 0 56 48 96 48 2 19200 (by norm_num) (by norm_num),
    addBarCount_eq 18 48 2.5 2160 (by norm_num) (by norm_num),
    addBarCount_eq 22 8 2.5 440 (by norm_num) (by norm_num),
    addBarCount_eq 12 32 2.5 960 (by norm_num) (by norm_num),
    addTriangleCount_eq 140 0 140 8 152 8 2.5 1200 (by norm_num) (by norm_num),
    addTriangleCount_eq 140 48 140 40 152 40 2.5 1200 (by norm_num) (by norm_num)]

/-- C8 counterexample: the about.js generator is density-driven — the fifteen
addBar/addTriangle calls produce 54054 particles, not the configured
particleCount of 20000. -/
theorem about_count_mismatch :
    aboutActualCount = 54054 ∧ aboutConfigParticleCount = 20000 ∧
      aboutActualCount ≠ aboutConfigParticleCount := by
  refine ⟨aboutActualCount_value, rfl, ?_⟩
  rw [aboutActualCount_value]
  norm_num [aboutConfigParticleCount]

/-- C8 amended: the part_001 about sampler pushes exactly one particle per
loop index and so produces exactly config.particleCount = 15000 points, while
the about.js variant produces the density-driven total 54054 regardless of its
configured particleCount = 20000, and its buffers are sized from the actual
list length. -/
theorem particle_count_amended (samplePoint : ℕ → ℝ × ℝ × ℝ) :
    (part001AboutParticles samplePoint).length = part001AboutParticleCount ∧
    aboutActualCount = 54054 ∧ aboutConfigParticleCount = 20000 := by
  refine ⟨?_, aboutActualCount_value, rfl⟩
  rw [part001AboutParticles, List.length_map, List.length_range]
